import Mathlib

/-!
Shallow embedding of the simulation core of the game in
src/loco_lift_rush.py: lift physics and floor snapping, user lifecycle
(spawn, queue, board, ride, disembark, abandon), queue packing at the
lift doors and scoring.

Numeric modelling: pygame integer rects (pg.Rect, used for the lift and
the screen) are embedded with integer coordinates; float rects (pg.FRect,
used for the users) and all velocities, times and patience values are
embedded as exact rationals.  Assigning a float to an integer rect field
truncates toward zero, which truncQ reproduces.  Randomness
(random.choice for the boarding slot and for the walk-off direction of a
centred satisfied user, random.normalvariate for the spawn countdown) is
embedded as oracle parameters supplied by the tick environment.
-/

attribute [local semireducible] Rat.mul Rat.add Rat.sub Rat.inv

set_option maxRecDepth 8000

namespace LocoLift

/-- WIDTH constant from the source (screen width, also world width). -/
def WIDTH : ℤ := 800

/-- HEIGHT constant from the source (screen height). -/
def HEIGHT : ℤ := 800

/-- FLOOR_HEIGHT constant from the source. -/
def FLOOR_HEIGHT : ℤ := 128

/-- SPEED_DAMPING constant from the source. -/
def SPEED_DAMPING : ℚ := 9 / 10

/-- MAX_SNAP_SPEED constant from the source. -/
def MAX_SNAP_SPEED : ℚ := 100

/-- SNAP_THRESHOLD constant from the source. -/
def SNAP_THRESHOLD : ℤ := 50

/-- USER_WIDTH constant from the source. -/
def USER_WIDTH : ℚ := 32

/-- USER_HEIGHT constant from the source. -/
def USER_HEIGHT : ℚ := 128

/-- USER_SPEED constant from the source. -/
def USER_SPEED : ℚ := 100

/-- USER_ANGRY_SPEED constant from the source. -/
def USER_ANGRY_SPEED : ℚ := 200

/-- Truncation of a rational toward zero, as CPython int() / pygame's
integer rect field assignment do. -/
def truncQ (q : ℚ) : ℤ := if q < 0 then -Int.floor (-q) else Int.floor q

/-- An integer rectangle (pg.Rect): x, y of the top-left corner, width,
height.  y grows downward as in pygame. -/
structure IRect where
  x : ℤ
  y : ℤ
  w : ℤ
  h : ℤ
  deriving DecidableEq, Repr

/-- pg.Rect.right. -/
def IRect.right (r : IRect) : ℤ := r.x + r.w

/-- pg.Rect.bottom. -/
def IRect.bottom (r : IRect) : ℤ := r.y + r.h

/-- pg.Rect.centerx (integer halving of the width, as pygame does). -/
def IRect.centerx (r : IRect) : ℤ := r.x + r.w / 2

/-- Assigning pg.Rect.bottom moves the rect, keeping its size. -/
def IRect.setBottom (r : IRect) (v : ℤ) : IRect := { r with y := v - r.h }

/-- Assigning pg.Rect.top moves the rect, keeping its size. -/
def IRect.setTop (r : IRect) (v : ℤ) : IRect := { r with y := v }

/-- A float rectangle (pg.FRect) with exact rational coordinates. -/
structure FRect where
  x : ℚ
  y : ℚ
  w : ℚ
  h : ℚ
  deriving DecidableEq, Repr

/-- pg.FRect.right. -/
def FRect.right (r : FRect) : ℚ := r.x + r.w

/-- pg.FRect.bottom. -/
def FRect.bottom (r : FRect) : ℚ := r.y + r.h

/-- pg.FRect.centerx. -/
def FRect.centerx (r : FRect) : ℚ := r.x + r.w / 2

/-- Assigning pg.FRect.bottom moves the rect, keeping its size. -/
def FRect.setBottom (r : FRect) (v : ℚ) : FRect := { r with y := v - r.h }

/-- Assigning pg.FRect.right moves the rect, keeping its size. -/
def FRect.setRight (r : FRect) (v : ℚ) : FRect := { r with x := v - r.w }

/-- Assigning pg.FRect.left moves the rect, keeping its size. -/
def FRect.setLeft (r : FRect) (v : ℚ) : FRect := { r with x := v }

/-- Assigning pg.FRect.x. -/
def FRect.setX (r : FRect) (v : ℚ) : FRect := { r with x := v }

/-- Assigning pg.FRect.centerx moves the rect, keeping its size. -/
def FRect.setCenterx (r : FRect) (v : ℚ) : FRect := { r with x := v - r.w / 2 }

/-- Truncation of a float rect to an integer rect, as pygame does when an
FRect is passed where a Rect is expected (e.g. Rect.contains). -/
def FRect.trunc (r : FRect) : IRect := ⟨truncQ r.x, truncQ r.y, truncQ r.w, truncQ r.h⟩

/-- pg.Rect.contains a b: b lies completely inside a (pygame's C test,
which also requires a nondegenerate horizontal and vertical overlap). -/
def IRect.containsB (a b : IRect) : Bool :=
  decide (a.x ≤ b.x) && decide (a.y ≤ b.y) &&
  decide (b.x + b.w ≤ a.x + a.w) && decide (b.y + b.h ≤ a.y + a.h) &&
  decide (b.x < a.x + a.w) && decide (b.y < a.y + a.h)

/-- screen.get_rect(): the 800 x 800 window rect used for the
out-of-bounds test of abandoning users. -/
def screenRect : IRect := ⟨0, 0, WIDTH, HEIGHT⟩

/-- A lift user (the User dataclass).  Users are identified by an id
standing for Python object identity; the image field is rendering-only
and omitted. -/
structure User where
  id : ℕ
  floor : ℤ
  destination : ℤ
  patience : ℚ
  rect : FRect
  lift_slot : Option ℕ
  waiting : Bool
  satisfied : Bool
  deriving DecidableEq, Repr

/-- The lift (the Lift dataclass).  Velocity and acceleration are purely
vertical in the source, so only the y components are kept; passengers
hold user ids. -/
structure Lift where
  rect : IRect
  vy : ℚ
  ay : ℚ
  maxSpeed : ℚ
  minSpeed : ℚ
  passengers : List (Option ℕ)
  capacity : ℕ
  deriving DecidableEq, Repr

/-- Velocity update of one lift tick (source lines 227-232): integrate
acceleration, dead-zone below min_speed, cap at max_speed.  The per-tick
damping factor is applied by liftTick on top of this. -/
def speedClamp (maxS minS v : ℚ) : ℚ :=
  let v1 := if |v| < minS then 0 else v
  if maxS < |v1| then maxS * (if 0 < v1 then 1 else -1) else v1

/-- Position clamp of one lift tick (source lines 234-235):
bottom = min(building_height, bottom), then top = max(top, 0). -/
def clampRectV (bh : ℤ) (r : IRect) : IRect :=
  let r1 := IRect.setBottom r (min bh (IRect.bottom r))
  IRect.setTop r1 (max r1.y 0)

/-- Floor snapping (source lines 238-245): while slow, if the offset from
the floor grid is far from the half-floor midpoint, push the rect bottom
straight to the nearer floor line. -/
def snapRect (bh : ℤ) (v : ℚ) (r : IRect) : IRect :=
  if |v| < MAX_SNAP_SPEED then
    let offset := (bh - IRect.bottom r) % FLOOR_HEIGHT
    if SNAP_THRESHOLD < |FLOOR_HEIGHT / 2 - offset| then
      if offset < FLOOR_HEIGHT / 2 then
        IRect.setBottom r (IRect.bottom r + offset)
      else
        IRect.setBottom r (IRect.bottom r - (FLOOR_HEIGHT - offset))
    else r
  else r

/-- One lift physics tick (source lines 225-245): velocity integration
with dead-zone, cap and per-tick damping, position integration with
truncation to the integer rect, bounds clamp, floor resolution and floor
snap.  Returns the updated lift and the resolved lift_floor (which the
source computes after the clamp but before the snap). -/
def liftTick (bh : ℤ) (dt : ℚ) (l : Lift) : Lift × ℤ :=
  let v := SPEED_DAMPING * speedClamp l.maxSpeed l.minSpeed (l.vy + l.ay * dt)
  let r1 := IRect.setTop l.rect (truncQ ((l.rect.y : ℚ) + v * dt))
  let r2 := clampRectV bh r1
  let lf := Int.fdiv (bh - IRect.bottom r2) FLOOR_HEIGHT
  let r3 := snapRect bh v r2
  ({ l with rect := r3, vy := v }, lf)

/-- The other users considered by the queue packing of a given user
(source lines 354-362): not boarded, same floor, a different object
(object identity embedded as id inequality), positive patience. -/
def queueOthers (u : User) (all : List User) : List User :=
  all.filter (fun o =>
    o.lift_slot.isNone && decide (o.floor = u.floor) && decide (o.id ≠ u.id) &&
    decide (0 < o.patience))

/-- Another user lies strictly between a left-side user and the lift
(source line 368): its left edge is beyond the user's right edge and
before the lift's left edge. -/
def betweenLeft (lift : IRect) (u : FRect) (o : User) : Prop :=
  FRect.right u < o.rect.x ∧ o.rect.x < (lift.x : ℚ)

instance (lift : IRect) (u : FRect) (o : User) : Decidable (betweenLeft lift u o) :=
  inferInstanceAs (Decidable (And _ _))

/-- Another user lies strictly between a right-side user and the lift
(source line 380). -/
def betweenRight (lift : IRect) (u : FRect) (o : User) : Prop :=
  (IRect.right lift : ℚ) < FRect.right o.rect ∧ FRect.right o.rect < u.x

instance (lift : IRect) (u : FRect) (o : User) : Decidable (betweenRight lift u o) :=
  inferInstanceAs (Decidable (And _ _))

/-- End-of-queue position for a user on the left of the lift (source
lines 364-371): the minimum of the lift's right door edge, the left
edges of the strictly-between others, and the screen width. -/
def endOfQueueLeft (lift : IRect) (u : FRect) (others : List User) : ℚ :=
  ((others.filter (fun o => decide (betweenLeft lift u o))).map (fun o => o.rect.x)).foldl
    min (min (IRect.right lift : ℚ) (WIDTH : ℚ))

/-- End-of-queue position for a user on the right of the lift (source
lines 376-383): the maximum of the lift's left door edge, the right
edges of the strictly-between others, and zero. -/
def endOfQueueRight (lift : IRect) (u : FRect) (others : List User) : ℚ :=
  ((others.filter (fun o => decide (betweenRight lift u o))).map (fun o => FRect.right o.rect)).foldl
    max (max (lift.x : ℚ) 0)

/-- The end-of-queue boundary as the claim words it, for a left-side
user: the nearest boundary among the lift's NEAR door edge (its left
edge, the edge facing the user) and the far-from-lift edges of the other
users lying strictly between this user and the lift.  Stated from the
claim's words only, for comparison with endOfQueueLeft, which the code
computes with the lift's far (right) door edge instead. -/
def claimEndOfQueueLeft (liftR : IRect) (u : FRect) (others : List User) : ℚ :=
  ((others.filter (fun o => decide (betweenLeft liftR u o))).map (fun o => o.rect.x)).foldl
    min (liftR.x : ℚ)

/-- all(lift.passengers): every slot holds a (truthy) user. -/
def allOccupied (ps : List (Option ℕ)) : Bool := ps.all (fun p => p.isSome)

/-- The sorted list of free slot indices (source lines 397-399:
slots = range(capacity) minus the occupied indices; CPython iterates a
set of small ints in ascending order). -/
def availableSlots (capacity : ℕ) (ps : List (Option ℕ)) : List ℕ :=
  (List.range capacity).filter (fun i => (ps.getD i none).isNone)

/-- Result of updating one user within a tick: the updated user, the
updated passenger slots, whether the user was appended to
users_to_remove, which score counter that removal increments, and
whether the update hit the one fallible operation of the loop
(random.choice on an empty free-slot list, an IndexError in Python). -/
structure UserTickResult where
  user : User
  passengers : List (Option ℕ)
  removed : Bool
  servedInc : Bool
  complaintsInc : Bool
  errored : Bool
  deriving DecidableEq, Repr

/-- Update of a user that holds a lift slot (source lines 307-339):
satisfied users free their slot and walk off toward the nearer screen
edge; riding users are pinned to the lift bottom and ease toward their
slot's x position; a user whose x leaves [0, WIDTH - USER_WIDTH] is
removed and counts as served. -/
def boardedTick (dt dirDraw : ℚ) (lift : Lift) (u : User) (s : ℕ)
    (at_destination : Bool) : UserTickResult :=
  let lift_is_stopped := decide (|lift.vy| < 5)
  let satisfied := u.satisfied || (at_destination && lift_is_stopped)
  let ps :=
    if satisfied then
      if lift.passengers.getD s none = some (some u.id) then lift.passengers.set s none
      else lift.passengers
    else lift.passengers
  let rect :=
    if satisfied then
      let offset := FRect.centerx u.rect - (IRect.centerx lift.rect : ℚ)
      let dir : ℚ := if 0 < offset then 1 else if offset < 0 then -1 else dirDraw
      FRect.setX u.rect (u.rect.x + dir * USER_SPEED * dt)
    else
      let rect1 := FRect.setBottom u.rect (IRect.bottom lift.rect : ℚ)
      let slot_width : ℤ := Int.fdiv (lift.rect.w - 16) (lift.capacity : ℤ)
      let slot_x : ℤ := lift.rect.x + 8 + (s : ℤ) * slot_width + Int.fdiv slot_width 2
      if 1 < |FRect.centerx rect1 - (slot_x : ℚ)| then
        FRect.setX rect1
          (rect1.x + (if FRect.centerx rect1 < (slot_x : ℚ) then 1 else -1) * USER_SPEED * dt)
      else FRect.setCenterx rect1 (slot_x : ℚ)
  let removed := !(decide (0 ≤ rect.x) && decide (rect.x ≤ (WIDTH : ℚ) - USER_WIDTH))
  { user := { u with rect := rect, satisfied := satisfied },
    passengers := ps, removed := removed, servedInc := removed,
    complaintsInc := false, errored := false }

/-- Patience decay (source lines 404-405): while waiting, patience
counts down, clamped at zero. -/
def decayPatience (w : Bool) (p dt : ℚ) : ℚ := if w then max 0 (p - dt) else p

/-- Queue packing of one walking user (source lines 363-386): the moved
rect, pushed back to 5 px before the end of the queue when blocked. -/
def queuedRect (liftR : IRect) (others : List User) (rect1 : FRect) : FRect :=
  if FRect.centerx rect1 < (IRect.centerx liftR : ℚ) then
    if endOfQueueLeft liftR rect1 others ≤ FRect.right rect1 + 5 then
      FRect.setRight rect1 (endOfQueueLeft liftR rect1 others - 5)
    else rect1
  else
    if rect1.x - 5 ≤ endOfQueueRight liftR rect1 others then
      FRect.setLeft rect1 (endOfQueueRight liftR rect1 others + 5)
    else rect1

/-- Whether the queue packing blocked the user this tick (the condition
under which source lines 372-374 and 384-386 set the waiting flag). -/
def queueBlockedB (liftR : IRect) (others : List User) (rect1 : FRect) : Bool :=
  if FRect.centerx rect1 < (IRect.centerx liftR : ℚ) then
    decide (endOfQueueLeft liftR rect1 others ≤ FRect.right rect1 + 5)
  else
    decide (rect1.x - 5 ≤ endOfQueueRight liftR rect1 others)

/-- The boarding decision (source lines 388-400): no slot when the guard
blocks (lift on another floor, or all slots truthy) or the user's center
is outside the door span; otherwise the tick's random draw indexed into
the free-slot list. -/
def boardDecision (liftFloor : ℤ) (slotDraw : ℕ) (lift : Lift) (u : User)
    (rect2 : FRect) : Option ℕ :=
  if liftFloor ≠ u.floor ∨ allOccupied lift.passengers = true then none
  else if (lift.rect.x : ℚ) ≤ FRect.centerx rect2
      ∧ FRect.centerx rect2 ≤ (IRect.right lift.rect : ℚ) then
    (availableSlots lift.capacity lift.passengers).get?
      (slotDraw % (availableSlots lift.capacity lift.passengers).length)
  else none

/-- Whether the boarding branch was entered and random.choice saw an
empty free-slot list (the IndexError case, structurally unreachable). -/
def boardErrored (liftFloor : ℤ) (slotDraw : ℕ) (lift : Lift) (u : User)
    (rect2 : FRect) : Bool :=
  if liftFloor ≠ u.floor ∨ allOccupied lift.passengers = true then false
  else if (lift.rect.x : ℚ) ≤ FRect.centerx rect2
      ∧ FRect.centerx rect2 ≤ (IRect.right lift.rect : ℚ) then
    ((availableSlots lift.capacity lift.passengers).get?
      (slotDraw % (availableSlots lift.capacity lift.passengers).length)).isNone
  else false

/-- The door clamp (source lines 388-393), applied when the lift is on
another floor or full, using the side read before the move. -/
def doorClampRect (liftR : IRect) (side : ℕ) (rect2 : FRect) : FRect :=
  if side = 1 then FRect.setRight rect2 (min (FRect.right rect2) ((liftR.x : ℚ) - 5))
  else FRect.setLeft rect2 (max rect2.x ((IRect.right liftR : ℚ) + 5))

/-- Update of a user that has not boarded (source lines 342-415): pin to
the current floor, then either walk toward the lift, pack into the
queue, possibly get clamped outside the doors or board (positive
patience), or walk off angrily and count as a complaint once outside the
screen rect (patience exhausted). -/
def groundTick (liftFloor : ℤ) (dt : ℚ) (slotDraw : ℕ) (all : List User)
    (lift : Lift) (u : User) (current_floor bh : ℤ) : UserTickResult :=
  let rect0 := FRect.setBottom u.rect ((bh : ℚ) - (current_floor : ℚ) * (FLOOR_HEIGHT : ℚ))
  if u.patience ≠ 0 then
    -- side is read from the pre-move position and reused by the door clamp
    let side : ℕ := if FRect.centerx rect0 < (IRect.centerx lift.rect : ℚ) then 1 else 0
    let rect1 := FRect.setX rect0 (rect0.x + (if side = 1 then 1 else -1) * USER_SPEED * dt)
    let others := queueOthers u all
    let rect2 := queuedRect lift.rect others rect1
    let waiting := u.waiting || queueBlockedB lift.rect others rect1
    let slot3 := boardDecision liftFloor slotDraw lift u rect2
    let rect3 :=
      if liftFloor ≠ u.floor ∨ allOccupied lift.passengers = true then
        doorClampRect lift.rect side rect2
      else
        match slot3 with
        | some _ => FRect.setBottom rect2 (IRect.bottom lift.rect : ℚ)
        | none => rect2
    let ps3 :=
      match slot3 with
      | some k => lift.passengers.set k (some u.id)
      | none => lift.passengers
    let patience := decayPatience waiting u.patience dt
    { user := { u with rect := rect3, lift_slot := slot3, waiting := waiting, patience := patience },
      passengers := ps3, removed := false, servedInc := false,
      complaintsInc := false, errored := boardErrored liftFloor slotDraw lift u rect2 }
  else
    let dir : ℚ := if FRect.centerx rect0 < (IRect.centerx lift.rect : ℚ) then -1 else 1
    let rectA := FRect.setX rect0 (rect0.x + dir * USER_ANGRY_SPEED * dt)
    let removed := !(IRect.containsB screenRect (FRect.trunc rectA))
    { user := { u with rect := rectA },
      passengers := lift.passengers, removed := removed, servedInc := false,
      complaintsInc := removed, errored := false }

/-- One iteration of the per-user update loop (source lines 301-415). -/
def userTick (bh liftFloor : ℤ) (dt : ℚ) (slotDraw : ℕ) (dirDraw : ℚ)
    (all : List User) (lift : Lift) (u : User) : UserTickResult :=
  let current_floor : ℤ := Int.floor (((bh : ℚ) - FRect.bottom u.rect) / (FLOOR_HEIGHT : ℚ))
  let destination_floor : ℤ := bh - u.destination * FLOOR_HEIGHT
  let at_destination : Bool := decide (|IRect.bottom lift.rect - destination_floor| < 5)
  match u.lift_slot with
  | some s => boardedTick dt dirDraw lift u s at_destination
  | none => groundTick liftFloor dt slotDraw all lift u current_floor bh

/-- Spawn step (source lines 293-298): count the arrival timer down and,
at most once per tick, append the next generated user and reseed the
countdown from the normal-distribution draw. -/
def spawnStep (dt : ℚ) (newUser : User) (resetDraw : ℚ) (users : List User)
    (t : ℚ) : List User × ℚ :=
  let t1 := t - dt
  if t1 ≤ 0 then (users ++ [newUser], resetDraw) else (users, t1)

/-- The per-user loop (source lines 300-415): users are updated in list
order against the in-place mutated shared state; flagged users stay in
the list (with their updated positions) until the sweep after the loop,
and the score counters are bumped as the flags are raised. -/
def processUsers (bh liftFloor : ℤ) (dt : ℚ) (slotDraw : ℕ → ℕ) (dirDraw : ℕ → ℚ) :
    List User → List User → Lift → ℕ → ℕ → List ℕ → Bool →
    List User × Lift × ℕ × ℕ × List ℕ × Bool
  | [], done, lift, served, compl, rem, err => (done, lift, served, compl, rem, err)
  | u :: todo, done, lift, served, compl, rem, err =>
    let r := userTick bh liftFloor dt (slotDraw u.id) (dirDraw u.id) (done ++ u :: todo) lift u
    processUsers bh liftFloor dt slotDraw dirDraw todo (done ++ [r.user])
      { lift with passengers := r.passengers }
      (served + (if r.servedInc then 1 else 0))
      (compl + (if r.complaintsInc then 1 else 0))
      (rem ++ (if r.removed then [u.id] else []))
      (err || r.errored)

/-- The simulation state owned by the play scene (the GameState fields
the core mutates, plus the lift). -/
structure Game where
  allUsers : List User
  buildingHeight : ℤ
  complaints : ℕ
  servedUsers : ℕ
  timeToNextUser : ℚ
  lift : Lift
  errored : Bool
  deriving DecidableEq, Repr

/-- The per-tick environment: delta time plus the oracle values standing
for the tick's random draws (next generated user, normalvariate reseed,
random.choice of a boarding slot indexed into the free list, and the
walk-off direction draw for a centred satisfied user). -/
structure TickEnv where
  dt : ℚ
  newUser : User
  resetDraw : ℚ
  slotDraw : ℕ → ℕ
  dirDraw : ℕ → ℚ

/-- One frame of the play scene's simulation core (source lines 225-423):
lift physics, spawn step, per-user loop, removal sweep. -/
def fullTick (env : TickEnv) (g : Game) : Game :=
  let lr := liftTick g.buildingHeight env.dt g.lift
  let su := spawnStep env.dt env.newUser env.resetDraw g.allUsers g.timeToNextUser
  let pr := processUsers g.buildingHeight lr.2 env.dt env.slotDraw env.dirDraw su.1 [] lr.1
    g.servedUsers g.complaints [] g.errored
  { allUsers := pr.1.filter (fun u => !(pr.2.2.2.2.1.contains u.id)),
    buildingHeight := g.buildingHeight,
    complaints := pr.2.2.2.1,
    servedUsers := pr.2.2.1,
    timeToNextUser := su.2,
    lift := pr.2.1,
    errored := pr.2.2.2.2.2 }

/-- Scenario state: the default lift (Lift()), parked at floor 0 of an
8-floor building (rect bottom 1024), passenger slots all free. -/
def scnLift : Lift :=
  { rect := ⟨350, 896, 100, 128⟩, vy := 0, ay := 0, maxSpeed := 600, minSpeed := 10,
    passengers := [none, none, none, none], capacity := 4 }

/-- Scenario user: spawns on the left side at floor 0 with destination 3
and patience 30 s (the CHILL patience level). -/
def scnUser : User :=
  { id := 0, floor := 0, destination := 3, patience := 30,
    rect := ⟨-32, 896, 32, 128⟩, lift_slot := none, waiting := false, satisfied := false }

/-- Scenario tick environment: one-second frames, no player input, the
spawn stream yields scnUser once (the reseed draw is so large that no
second user ever spawns), slot draws pick index 0 of the free list. -/
def scnEnv : TickEnv :=
  { dt := 1, newUser := scnUser, resetDraw := 1000000, slotDraw := fun _ => 0,
    dirDraw := fun _ => 1 }

/-- Scenario initial game state: 8 floors (building height 1024), the
spawn countdown already elapsed so the user spawns on the first tick. -/
def scnGame : Game :=
  { allUsers := [], buildingHeight := 1024, complaints := 0, servedUsers := 0,
    timeToNextUser := 0, lift := scnLift, errored := false }

/-- n frames of the scenario. -/
def scnRun (n : ℕ) : Game := (fullTick scnEnv)^[n] scnGame

/-- A lift moving at 300 px/s, otherwise the default lift state. -/
def dzLift : Lift :=
  { rect := ⟨350, 896, 100, 128⟩, vy := 300, ay := 0, maxSpeed := 600, minSpeed := 10,
    passengers := [none, none, none, none], capacity := 4 }

/-- A user on floor 2 whose patience has run out (abandoning). -/
def uAbandon : User :=
  { id := 1, floor := 2, destination := 0, patience := 0, rect := ⟨300, 640, 32, 128⟩,
    lift_slot := none, waiting := true, satisfied := false }

/-- A riding user holding lift slot 1. -/
def uBoard : User :=
  { id := 2, floor := 0, destination := 3, patience := 12, rect := ⟨352, 896, 32, 128⟩,
    lift_slot := some 1, waiting := true, satisfied := false }

/-- A queued user on floor 3, left of the lift, lift elsewhere. -/
def uQueue : User :=
  { id := 3, floor := 3, destination := 0, patience := 20, rect := ⟨200, 512, 32, 128⟩,
    lift_slot := none, waiting := false, satisfied := false }

/-- A user on floor 0 about to walk into the door span of the lift. -/
def uBoardNow : User :=
  { id := 4, floor := 0, destination := 5, patience := 20, rect := ⟨268, 896, 32, 128⟩,
    lift_slot := none, waiting := false, satisfied := false }

/-! ### Helper lemmas about rect accessors -/

theorem IRect.bottom_setBottom (r : IRect) (v : ℤ) : IRect.bottom (r.setBottom v) = v := by
  simp [IRect.setBottom, IRect.bottom]

theorem IRect.h_setBottom (r : IRect) (v : ℤ) : (r.setBottom v).h = r.h := rfl

theorem IRect.h_setTop (r : IRect) (v : ℤ) : (r.setTop v).h = r.h := rfl

theorem IRect.setTop_self (r : IRect) : r.setTop r.y = r := rfl

theorem FRect.right_setRight (r : FRect) (v : ℚ) : FRect.right (r.setRight v) = v := by
  simp [FRect.setRight, FRect.right]

theorem FRect.centerx_setBottom (r : FRect) (v : ℚ) :
    FRect.centerx (r.setBottom v) = FRect.centerx r := rfl

theorem decayPatience_dt_zero (w : Bool) (p : ℚ) (hp : 0 ≤ p) : decayPatience w p 0 = p := by
  unfold decayPatience
  split
  · rw [sub_zero]
    exact max_eq_right hp
  · rfl

theorem truncQ_intCast (m : ℤ) : truncQ (m : ℚ) = m := by
  unfold truncQ
  split
  · rw [← Rat.cast_intCast (α := ℚ)]
    push_cast
    rw [← Int.cast_neg, Int.floor_intCast, neg_neg]
  · exact_mod_cast Int.floor_intCast m

/-! ### Lift physics facts -/

/-- The clamp of source lines 234-235, written out on coordinates. -/
theorem clampRectV_eq (bh : ℤ) (r : IRect) :
    clampRectV bh r = { r with y := max (min bh (r.y + r.h) - r.h) 0 } := rfl

/-- Velocity clamp bound: the dead-zoned, capped velocity never exceeds
max_speed in magnitude. -/
theorem abs_speedClamp_le (maxS minS v : ℚ) (h : 0 ≤ maxS) :
    |speedClamp maxS minS v| ≤ maxS := by
  simp only [speedClamp]
  generalize (if |v| < minS then (0 : ℚ) else v) = v1
  split
  · rw [abs_mul]
    split <;> simp [abs_of_nonneg h]
  · rename_i hc
    exact not_lt.mp hc

/-- After the bounds clamp the rect bottom lies in [h, bh] (for bh ≥ h)
and the height is unchanged. -/
theorem clampRectV_bounds (bh : ℤ) (r : IRect) (h1 : r.h ≤ bh) :
    r.h ≤ IRect.bottom (clampRectV bh r) ∧ IRect.bottom (clampRectV bh r) ≤ bh ∧
      (clampRectV bh r).h = r.h := by
  have hm : IRect.bottom (clampRectV bh r) = max (min bh (r.y + r.h) - r.h) 0 + r.h := rfl
  refine ⟨?_, ?_, rfl⟩ <;> rw [hm] <;>
    rcases max_cases (min bh (r.y + r.h) - r.h) 0 with ⟨h3, h4⟩ | ⟨h3, h4⟩ <;>
    rcases min_cases bh (r.y + r.h) with ⟨h5, h6⟩ | ⟨h5, h6⟩ <;> omega

/-- Floor snapping keeps the rect bottom inside [128, 128·n] when the
building height is a multiple of the floor height, and keeps the height. -/
theorem snapRect_bounds (n : ℤ) (v : ℚ) (r : IRect)
    (hb1 : 128 ≤ IRect.bottom r) (hb2 : IRect.bottom r ≤ 128 * n) :
    128 ≤ IRect.bottom (snapRect (128 * n) v r) ∧
      IRect.bottom (snapRect (128 * n) v r) ≤ 128 * n ∧
      (snapRect (128 * n) v r).h = r.h := by
  simp only [snapRect, FLOOR_HEIGHT, SNAP_THRESHOLD, MAX_SNAP_SPEED]
  split
  · split
    · rename_i h2
      rcases lt_abs.mp h2 with h2' | h2' <;> split <;>
        simp only [IRect.bottom_setBottom, IRect.h_setBottom] <;>
        exact ⟨by omega, by omega, trivial⟩
    · exact ⟨hb1, hb2, rfl⟩
  · exact ⟨hb1, hb2, rfl⟩

/-- The rect produced by one lift tick is the snap of the clamp of the
integrated rect. -/
theorem liftTick_rect (bh : ℤ) (dt : ℚ) (l : Lift) :
    (liftTick bh dt l).1.rect = snapRect bh ((liftTick bh dt l).1.vy)
      (clampRectV bh (IRect.setTop l.rect
        (truncQ ((l.rect.y : ℚ) + (liftTick bh dt l).1.vy * dt)))) := rfl

/-! ### Claim theorems -/

/-- C6: after every tick, for any incoming state, input acceleration and
delta time, the lift rect stays within the building: its top y is ≥ 0
and its bottom is ≤ building_height (= 128·n), including after the
floor-snap adjustment, and the lift speed satisfies
|velocity| ≤ max_speed. -/
theorem lift_bounds_invariant (l : Lift) (dt : ℚ) (n : ℤ)
    (hh : l.rect.h = 128) (hn : 1 ≤ n) (hmax : 0 ≤ l.maxSpeed) :
    0 ≤ (liftTick (128 * n) dt l).1.rect.y ∧
      IRect.bottom ((liftTick (128 * n) dt l).1.rect) ≤ 128 * n ∧
      |(liftTick (128 * n) dt l).1.vy| ≤ l.maxSpeed := by
  have hvy : (liftTick (128 * n) dt l).1.vy
      = SPEED_DAMPING * speedClamp l.maxSpeed l.minSpeed (l.vy + l.ay * dt) := rfl
  have hvbound : |(liftTick (128 * n) dt l).1.vy| ≤ l.maxSpeed := by
    rw [hvy, abs_mul]
    have h1 := abs_speedClamp_le l.maxSpeed l.minSpeed (l.vy + l.ay * dt) hmax
    have h2 : |SPEED_DAMPING| ≤ 1 := by decide
    calc |SPEED_DAMPING| * |speedClamp l.maxSpeed l.minSpeed (l.vy + l.ay * dt)|
        ≤ 1 * |speedClamp l.maxSpeed l.minSpeed (l.vy + l.ay * dt)| :=
          mul_le_mul_of_nonneg_right h2 (abs_nonneg _)
      _ = |speedClamp l.maxSpeed l.minSpeed (l.vy + l.ay * dt)| := one_mul _
      _ ≤ l.maxSpeed := h1
  set r1 := IRect.setTop l.rect
    (truncQ ((l.rect.y : ℚ) + (liftTick (128 * n) dt l).1.vy * dt)) with hr1
  have hr1h : r1.h = 128 := hh
  have hcl := clampRectV_bounds (128 * n) r1 (by omega)
  rw [hr1h] at hcl
  have hsn := snapRect_bounds n ((liftTick (128 * n) dt l).1.vy) (clampRectV (128 * n) r1)
    hcl.1 hcl.2.1
  rw [liftTick_rect, ← hr1]
  refine ⟨?_, hsn.2.1, hvbound⟩
  have hhs : (snapRect (128 * n) ((liftTick (128 * n) dt l).1.vy)
      (clampRectV (128 * n) r1)).h = 128 := hsn.2.2.trans hcl.2.2
  have hb1 := hsn.1
  have hbeq : IRect.bottom (snapRect (128 * n) ((liftTick (128 * n) dt l).1.vy)
        (clampRectV (128 * n) r1))
      = (snapRect (128 * n) ((liftTick (128 * n) dt l).1.vy)
        (clampRectV (128 * n) r1)).y
        + (snapRect (128 * n) ((liftTick (128 * n) dt l).1.vy)
          (clampRectV (128 * n) r1)).h := rfl
  omega

/-- C6 witness at a concrete state: the default lift of the game at the
bottom of the 8-floor building, one-second tick. -/
theorem lift_bounds_invariant_witness :
    0 ≤ (liftTick (128 * 8) 1 scnLift).1.rect.y ∧
      IRect.bottom ((liftTick (128 * 8) 1 scnLift).1.rect) ≤ 128 * 8 ∧
      |(liftTick (128 * 8) 1 scnLift).1.vy| ≤ scnLift.maxSpeed :=
  lift_bounds_invariant scnLift 1 8 (by decide) (by decide) (by decide)

/-- C7: in every lift tick, after the velocity is integrated
(velocity + acceleration·dt), dead-zoned below min_speed and capped at
max_speed, it is multiplied by the constant damping factor
SPEED_DAMPING = 0.9 exactly once, as a plain per-tick factor that does
not depend on delta_time. -/
theorem velocity_damping_per_tick (bh : ℤ) (dt : ℚ) (l : Lift) :
    (liftTick bh dt l).1.vy
        = SPEED_DAMPING * speedClamp l.maxSpeed l.minSpeed (l.vy + l.ay * dt) ∧
      SPEED_DAMPING = 9 / 10 :=
  ⟨rfl, rfl⟩

/-- C1 counterexample: in Scenario A exactly as stated (lift parked at
floor 0, user spawning with origin floor 0, destination 3, patience 30 s,
lift never moving), the user walks to the doors and boards within the
first seconds, because the lift is at the user's floor with free slots.
After 31 one-second frames the complaints counter is 0 (not 1), the user
holds lift slot 0 with patience still 30 (never Abandoning), and the
lift indeed never moved. -/
theorem scnA_user_boards_not_abandons :
    (scnRun 31).complaints = 0 ∧ (scnRun 31).complaints ≠ 1 ∧
      (scnRun 31).allUsers.map (fun u => u.lift_slot) = [some 0] ∧
      (scnRun 31).allUsers.map (fun u => u.patience) = [30] ∧
      (scnRun 31).lift.rect = scnLift.rect := by decide

/-- C1 amended: if the lift is at floor 0 and a user spawns with origin
floor 0, destination floor 3, and patience 30 s, and the lift never
moves for 30 seconds, then the user boards the lift (a slot is assigned
as soon as the walk brings its center into the door span) instead of
abandoning: complaints stays 0, served stays 0 (the ride never ends),
and the user's patience is never consumed. -/
theorem scnA_run_boards_and_no_complaints :
    (scnRun 31).allUsers.map (fun u => u.lift_slot) = [some 0] ∧
      (scnRun 31).complaints = 0 ∧ (scnRun 31).servedUsers = 0 ∧
      (scnRun 31).allUsers.map (fun u => u.patience) = [30] := by decide

/-- C10: the spawn step adds at most one user per tick: exactly one when
the countdown has run out (even when a previous normal-distribution draw
reset it to a negative value), none otherwise; and the countdown is
reseeded only on the tick that spawns. -/
theorem spawn_at_most_one_per_tick (dt : ℚ) (nu : User) (rd : ℚ)
    (users : List User) (t : ℚ) :
    (spawnStep dt nu rd users t).1.length ≤ users.length + 1 ∧
      (spawnStep dt nu rd users t).1.length
        = (if t - dt ≤ 0 then users.length + 1 else users.length) ∧
      (spawnStep dt nu rd users t).2 = (if t - dt ≤ 0 then rd else t - dt) := by
  simp only [spawnStep]
  split <;> rename_i h <;> simp [h]

/-- C2 counterexample: a tick with delta_time = 0 does not leave the
lift's velocity unchanged: the per-tick damping factor still applies, so
a lift moving at 300 px/s ends the zero-length tick at 270 px/s.  (The
change is not a comparison-gated state transition; it is the
unconditional damping multiplication.) -/
theorem dt_zero_changes_velocity :
    (liftTick 1024 0 dzLift).1.vy = 270 ∧ (liftTick 1024 0 dzLift).1.vy ≠ dzLift.vy := by
  decide

/-- C2 amended: with delta_time = 0 no integration displacement occurs:
every patience value is unchanged, the lift rect changes only through
the comparison-gated bounds clamp and floor snap, and the spawn
countdown and user count change only when the comparison-gated spawn
fires; the lift velocity, however, is still dead-zoned, capped and
multiplied by the per-tick damping factor. -/
theorem dt_zero_tick_effects (l : Lift) (bh lf : ℤ) (sd : ℕ) (dd : ℚ)
    (all : List User) (lift : Lift) (u : User) (nu : User) (rd : ℚ)
    (users : List User) (t : ℚ) (hp : 0 ≤ u.patience) :
    (liftTick bh 0 l).1.vy = SPEED_DAMPING * speedClamp l.maxSpeed l.minSpeed l.vy ∧
      (liftTick bh 0 l).1.rect = snapRect bh ((liftTick bh 0 l).1.vy) (clampRectV bh l.rect) ∧
      (userTick bh lf 0 sd dd all lift u).user.patience = u.patience ∧
      (spawnStep 0 nu rd users t).2 = (if t ≤ 0 then rd else t) ∧
      (spawnStep 0 nu rd users t).1.length
        = (if t ≤ 0 then users.length + 1 else users.length) := by
  refine ⟨?_, ?_, ?_, ?_, ?_⟩
  · show SPEED_DAMPING * speedClamp l.maxSpeed l.minSpeed (l.vy + l.ay * 0) = _
    rw [mul_zero, add_zero]
  · rw [liftTick_rect]
    simp only [mul_zero, add_zero, truncQ_intCast, IRect.setTop_self]
  · rcases hu : u.lift_slot with _ | s
    · simp only [userTick, hu]
      unfold groundTick
      split
      · dsimp only
        exact decayPatience_dt_zero _ _ hp
      · rfl
    · simp only [userTick, hu]
      rfl
  · simp only [spawnStep, sub_zero]
    split <;> rename_i h <;> simp [h]
  · simp only [spawnStep, sub_zero]
    split <;> rename_i h <;> simp [h]

/-- C2 witness at concrete inputs. -/
theorem dt_zero_tick_effects_witness :
    (liftTick 1024 0 dzLift).1.vy
        = SPEED_DAMPING * speedClamp dzLift.maxSpeed dzLift.minSpeed dzLift.vy ∧
      (liftTick 1024 0 dzLift).1.rect
        = snapRect 1024 ((liftTick 1024 0 dzLift).1.vy) (clampRectV 1024 dzLift.rect) ∧
      (userTick 1024 0 0 0 1 [] scnLift scnUser).user.patience = scnUser.patience ∧
      (spawnStep 0 scnUser 5 [] 3).2 = (if (3 : ℚ) ≤ 0 then 5 else 3) ∧
      (spawnStep 0 scnUser 5 [] 3).1.length
        = (if (3 : ℚ) ≤ 0 then List.length ([] : List User) + 1
           else List.length ([] : List User)) :=
  dt_zero_tick_effects dzLift 1024 0 0 1 [] scnLift scnUser scnUser 5 [] 3 (by decide)

/-- C3: an abandoning user (patience exhausted without ever acquiring a
lift slot) walks off toward the nearer screen edge at angry speed, and
is removed from the active set with the complaints counter incremented
exactly when its rect stops being contained in the screen rect; such a
removal never counts as served. -/
theorem abandoning_removal_iff_offscreen (bh lf : ℤ) (dt : ℚ) (sd : ℕ) (dd : ℚ)
    (all : List User) (lift : Lift) (u : User)
    (hslot : u.lift_slot = none) (hp : u.patience = 0) :
    (userTick bh lf dt sd dd all lift u).removed
        = !(IRect.containsB screenRect
            (FRect.trunc (userTick bh lf dt sd dd all lift u).user.rect)) ∧
      (userTick bh lf dt sd dd all lift u).complaintsInc
        = (userTick bh lf dt sd dd all lift u).removed ∧
      (userTick bh lf dt sd dd all lift u).servedInc = false ∧
      (userTick bh lf dt sd dd all lift u).user.rect.x
        = u.rect.x + (if FRect.centerx u.rect < (IRect.centerx lift.rect : ℚ)
            then -1 else 1) * USER_ANGRY_SPEED * dt := by
  simp only [userTick, hslot]
  unfold groundTick
  rw [if_neg (fun hne => hne hp)]
  exact ⟨rfl, rfl, rfl, rfl⟩

/-- C3 witness: an abandoning user on floor 2 at x = 300 with the lift
parked at floor 0, over a one-second tick. -/
theorem abandoning_removal_iff_offscreen_witness :
    (userTick 1024 0 1 0 1 [] scnLift uAbandon).removed
        = !(IRect.containsB screenRect
            (FRect.trunc (userTick 1024 0 1 0 1 [] scnLift uAbandon).user.rect)) ∧
      (userTick 1024 0 1 0 1 [] scnLift uAbandon).complaintsInc
        = (userTick 1024 0 1 0 1 [] scnLift uAbandon).removed ∧
      (userTick 1024 0 1 0 1 [] scnLift uAbandon).servedInc = false ∧
      (userTick 1024 0 1 0 1 [] scnLift uAbandon).user.rect.x
        = uAbandon.rect.x + (if FRect.centerx uAbandon.rect
            < (IRect.centerx scnLift.rect : ℚ) then -1 else 1) * USER_ANGRY_SPEED * 1 :=
  abandoning_removal_iff_offscreen 1024 0 1 0 1 [] scnLift uAbandon (by decide) (by decide)

/-- C8: a user holding a lift slot keeps it through every tick, its
patience is never decreased, and if the tick removes it from the active
set the removal increments served_users and never complaints: a boarded
user can no longer abandon. -/
theorem boarded_user_never_abandons_step (bh lf : ℤ) (dt : ℚ) (sd : ℕ) (dd : ℚ)
    (all : List User) (lift : Lift) (u : User) (s : ℕ) (hs : u.lift_slot = some s) :
    (userTick bh lf dt sd dd all lift u).user.lift_slot = some s ∧
      (userTick bh lf dt sd dd all lift u).user.patience = u.patience ∧
      (userTick bh lf dt sd dd all lift u).complaintsInc = false ∧
      (userTick bh lf dt sd dd all lift u).servedInc
        = (userTick bh lf dt sd dd all lift u).removed := by
  simp only [userTick, hs]
  exact ⟨hs, rfl, rfl, rfl⟩

/-- C8 witness: a riding user in slot 1 over a one-second tick. -/
theorem boarded_user_never_abandons_step_witness :
    (userTick 1024 0 1 0 1 [] scnLift uBoard).user.lift_slot = some 1 ∧
      (userTick 1024 0 1 0 1 [] scnLift uBoard).user.patience = uBoard.patience ∧
      (userTick 1024 0 1 0 1 [] scnLift uBoard).complaintsInc = false ∧
      (userTick 1024 0 1 0 1 [] scnLift uBoard).servedInc
        = (userTick 1024 0 1 0 1 [] scnLift uBoard).removed :=
  boarded_user_never_abandons_step 1024 0 1 0 1 [] scnLift uBoard 1 (by decide)

/-- C9: whenever the boarding branch can execute (its guard saw at least
one free passenger slot, i.e. not all slots truthy), the computed list
of available slots is nonempty, and the random slot selection (an
arbitrary draw reduced modulo the list length) always lands inside it:
the per-tick update never indexes an empty collection while boarding. -/
theorem boarding_free_slots_nonempty (lift : Lift) (u : User) (lf : ℤ) (d : ℕ)
    (rect2 : FRect)
    (hlen : lift.passengers.length = lift.capacity)
    (hocc : allOccupied lift.passengers = false) :
    availableSlots lift.capacity lift.passengers ≠ [] ∧
      (availableSlots lift.capacity lift.passengers).getD
          (d % (availableSlots lift.capacity lift.passengers).length) 0
        ∈ availableSlots lift.capacity lift.passengers ∧
      boardErrored lf d lift u rect2 = false := by
  have hne : availableSlots lift.capacity lift.passengers ≠ [] := by
    obtain ⟨x, hx, hxp⟩ := List.all_eq_false.mp hocc
    obtain ⟨i, hi, hig⟩ := List.mem_iff_getElem.mp hx
    have hxn : x = none := by
      cases x
      · rfl
      · simp at hxp
    have himem : i ∈ availableSlots lift.capacity lift.passengers := by
      unfold availableSlots
      rw [List.mem_filter]
      refine ⟨List.mem_range.mpr (by omega), ?_⟩
      rw [List.getD_eq_getElem?_getD, List.getElem?_eq_getElem hi, hig, hxn]
      rfl
    exact List.ne_nil_of_mem himem
  have hpos : 0 < (availableSlots lift.capacity lift.passengers).length :=
    List.length_pos.mpr hne
  have hlt := Nat.mod_lt d hpos
  refine ⟨hne, ?_, ?_⟩
  · rw [List.getD_eq_getElem?_getD, List.getElem?_eq_getElem hlt, Option.getD_some]
    exact List.getElem_mem _
  · unfold boardErrored
    split
    · rfl
    · split
      · rw [List.get?_eq_getElem?, List.getElem?_eq_getElem hlt]
        rfl
      · rfl

/-- C9 witness: the default empty lift, an arbitrary queued user and a
draw of 6. -/
theorem boarding_free_slots_nonempty_witness :
    availableSlots scnLift.capacity scnLift.passengers ≠ [] ∧
      (availableSlots scnLift.capacity scnLift.passengers).getD
          (6 % (availableSlots scnLift.capacity scnLift.passengers).length) 0
        ∈ availableSlots scnLift.capacity scnLift.passengers ∧
      boardErrored 0 6 scnLift uQueue uQueue.rect = false :=
  boarding_free_slots_nonempty scnLift uQueue 0 6 uQueue.rect (by decide) (by decide)

/-- If the boarding decision yields a slot, the guard chain held: lift on
the user's floor, a free slot, the center inside the door span, and the
slot is the draw into the free-slot list (hence a member of it). -/
theorem boardDecision_eq_some (lf : ℤ) (sd : ℕ) (lift : Lift) (u : User)
    (rect2 : FRect) (k : ℕ) (h : boardDecision lf sd lift u rect2 = some k) :
    lf = u.floor ∧ allOccupied lift.passengers = false ∧
      (lift.rect.x : ℚ) ≤ FRect.centerx rect2 ∧
      FRect.centerx rect2 ≤ (IRect.right lift.rect : ℚ) ∧
      (availableSlots lift.capacity lift.passengers).get?
        (sd % (availableSlots lift.capacity lift.passengers).length) = some k ∧
      k ∈ availableSlots lift.capacity lift.passengers := by
  unfold boardDecision at h
  split at h
  · exact Option.noConfusion h
  · rename_i hguard
    split at h
    · rename_i hdoor
      have hg2 := not_or.mp hguard
      exact ⟨not_not.mp hg2.1, Bool.eq_false_iff.mpr hg2.2, hdoor.1, hdoor.2, h,
        List.get?_mem h⟩
    · exact Option.noConfusion h

/-- Boarding analysis of the not-boarded branch of the per-user update:
if the tick assigns a slot, the guards held and the slot came from the
free-slot list; the user's final center is the one the door-span test
saw. -/
theorem groundTick_boards_only_with_guards (lf : ℤ) (dt : ℚ) (sd : ℕ)
    (all : List User) (lift : Lift) (u : User) (cf bh : ℤ) (k : ℕ)
    (h0 : u.lift_slot = none)
    (hk : (groundTick lf dt sd all lift u cf bh).user.lift_slot = some k) :
    lf = u.floor ∧ allOccupied lift.passengers = false ∧
      (lift.rect.x : ℚ) ≤ FRect.centerx (groundTick lf dt sd all lift u cf bh).user.rect ∧
      FRect.centerx (groundTick lf dt sd all lift u cf bh).user.rect
        ≤ (IRect.right lift.rect : ℚ) ∧
      (availableSlots lift.capacity lift.passengers).get?
        (sd % (availableSlots lift.capacity lift.passengers).length) = some k ∧
      k ∈ availableSlots lift.capacity lift.passengers := by
  unfold groundTick at hk ⊢
  split at hk
  case isTrue hpne =>
    rw [if_pos hpne]
    dsimp only at hk ⊢
    have hfacts := boardDecision_eq_some _ _ _ _ _ _ hk
    have hg : ¬(lf ≠ u.floor ∨ allOccupied lift.passengers = true) := by
      rw [not_or]
      refine ⟨not_not.mpr hfacts.1, ?_⟩
      rw [hfacts.2.1]
      exact Bool.false_ne_true
    rw [if_neg hg, hk]
    exact hfacts
  case isFalse =>
    dsimp only at hk
    rw [h0] at hk
    exact Option.noConfusion hk
/-- C5: a queued user acquires a lift slot only when (a) the resolved
lift floor equals the user's floor, (b) at least one passenger slot is
free, and (c) the user's horizontal center lies within the lift door
span; the assigned slot is the tick's random draw indexed into the whole
free-slot list (so any free slot can be assigned, not only the lowest
free index), and is in particular a member of that list. -/
theorem boarding_guards_and_slot_choice (bh lf : ℤ) (dt : ℚ) (sd : ℕ) (dd : ℚ)
    (all : List User) (lift : Lift) (u : User) (k : ℕ)
    (h0 : u.lift_slot = none)
    (hk : (userTick bh lf dt sd dd all lift u).user.lift_slot = some k) :
    lf = u.floor ∧ allOccupied lift.passengers = false ∧
      (lift.rect.x : ℚ) ≤ FRect.centerx (userTick bh lf dt sd dd all lift u).user.rect ∧
      FRect.centerx (userTick bh lf dt sd dd all lift u).user.rect
        ≤ (IRect.right lift.rect : ℚ) ∧
      (availableSlots lift.capacity lift.passengers).get?
        (sd % (availableSlots lift.capacity lift.passengers).length) = some k ∧
      k ∈ availableSlots lift.capacity lift.passengers := by
  simp only [userTick, h0] at hk ⊢
  exact groundTick_boards_only_with_guards lf dt sd all lift u _ bh k h0 hk

/-- C5 witness: a user walking into the door span of the parked,
non-full lift at its floor, with draw 1 picking free slot 1 (not the
lowest free index 0). -/
theorem boarding_guards_and_slot_choice_witness :
    (0 : ℤ) = uBoardNow.floor ∧ allOccupied scnLift.passengers = false ∧
      (scnLift.rect.x : ℚ)
          ≤ FRect.centerx (userTick 1024 0 1 1 1 [] scnLift uBoardNow).user.rect ∧
      FRect.centerx (userTick 1024 0 1 1 1 [] scnLift uBoardNow).user.rect
        ≤ (IRect.right scnLift.rect : ℚ) ∧
      (availableSlots scnLift.capacity scnLift.passengers).get?
        (1 % (availableSlots scnLift.capacity scnLift.passengers).length) = some 1 ∧
      1 ∈ availableSlots scnLift.capacity scnLift.passengers :=
  boarding_guards_and_slot_choice 1024 0 1 1 1 [] scnLift uBoardNow 1 (by decide) (by decide)

/-! ### Folded minimum facts for the queue characterization -/

theorem foldl_min_le_init (xs : List ℚ) (a : ℚ) : List.foldl min a xs ≤ a := by
  induction xs generalizing a with
  | nil => exact le_refl a
  | cons y ys ih => exact le_trans (ih (min a y)) (min_le_left a y)

theorem foldl_min_le_mem (xs : List ℚ) :
    ∀ (a x : ℚ), x ∈ xs → List.foldl min a xs ≤ x := by
  induction xs with
  | nil =>
    intro a x hx
    cases hx
  | cons y ys ih =>
    intro a x hx
    rcases List.mem_cons.mp hx with rfl | hx'
    · exact le_trans (foldl_min_le_init ys (min a x)) (min_le_right a x)
    · exact ih (min a y) x hx'

theorem foldl_min_mem_or (xs : List ℚ) :
    ∀ a : ℚ, List.foldl min a xs = a ∨ List.foldl min a xs ∈ xs := by
  induction xs with
  | nil =>
    intro a
    exact Or.inl rfl
  | cons y ys ih =>
    intro a
    rcases ih (min a y) with h | h
    · rcases min_cases a y with ⟨he, _⟩ | ⟨he, _⟩
      · exact Or.inl (by rw [List.foldl_cons, h, he])
      · refine Or.inr ?_
        rw [List.foldl_cons, h, he]
        exact List.mem_cons_self y ys
    · exact Or.inr (List.mem_cons_of_mem y h)

/-! ### Folded maximum facts, dual to the minimum ones -/

theorem foldl_max_ge_init (xs : List ℚ) (a : ℚ) : a ≤ List.foldl max a xs := by
  induction xs generalizing a with
  | nil => exact le_refl a
  | cons y ys ih => exact le_trans (le_max_left a y) (ih (max a y))

theorem foldl_max_ge_mem (xs : List ℚ) :
    ∀ (a x : ℚ), x ∈ xs → x ≤ List.foldl max a xs := by
  induction xs with
  | nil =>
    intro a x hx
    cases hx
  | cons y ys ih =>
    intro a x hx
    rcases List.mem_cons.mp hx with rfl | hx'
    · exact le_trans (le_max_right a x) (foldl_max_ge_init ys (max a x))
    · exact ih (max a y) x hx'

theorem foldl_max_mem_or (xs : List ℚ) :
    ∀ a : ℚ, List.foldl max a xs = a ∨ List.foldl max a xs ∈ xs := by
  induction xs with
  | nil =>
    intro a
    exact Or.inl rfl
  | cons y ys ih =>
    intro a
    rcases ih (max a y) with h | h
    · rcases max_cases a y with ⟨he, _⟩ | ⟨he, _⟩
      · exact Or.inl (by rw [List.foldl_cons, h, he])
      · refine Or.inr ?_
        rw [List.foldl_cons, h, he]
        exact List.mem_cons_self y ys
    · exact Or.inr (List.mem_cons_of_mem y h)

/-- The door clamp caps a left-side (side = 1) user's right edge 5 px
before the lift's left door edge. -/
theorem doorClampRect_side1_right (liftR : IRect) (rect2 : FRect) :
    FRect.right (doorClampRect liftR 1 rect2) ≤ (liftR.x : ℚ) - 5 := by
  unfold doorClampRect
  rw [if_pos rfl, FRect.right_setRight]
  exact min_le_right _ _

/-- The door clamp keeps a right-side (side = 0) user's left edge 5 px
past the lift's right door edge. -/
theorem doorClampRect_side0_left (liftR : IRect) (rect2 : FRect) :
    (IRect.right liftR : ℚ) + 5 ≤ (doorClampRect liftR 0 rect2).x := by
  unfold doorClampRect
  rw [if_neg (by decide : ¬((0 : ℕ) = 1))]
  exact le_max_right _ _

/-- C4 (amended form): each tick, for any non-boarded positive-patience
user, the end-of-queue position is the nearest boundary among the lift's
FAR door edge (its right edge for a user approaching from the left, its
left edge for a user approaching from the right), the screen edge on the
lift's far side, and the far-from-lift edges of the unboarded
positive-patience same-floor users lying strictly between this user and
the lift — so users pack against the far door edge or against each
other, earliest arrivals nearest the lift; and when the lift is not at
the user's floor or is full, the per-user update additionally clamps the
user 5 px outside the lift's near door edge on the user's own side, so
the user never walks past the doors or overlaps the car. -/
theorem end_of_queue_packing_and_door_clamp (liftR : IRect) (ur : FRect)
    (others : List User) (bh lf : ℤ) (dt : ℚ) (sd : ℕ) (dd : ℚ) (all : List User)
    (lift : Lift) (u : User)
    (hslot : u.lift_slot = none) (hpat : u.patience ≠ 0)
    (hguard : lf ≠ u.floor ∨ allOccupied lift.passengers = true) :
    (endOfQueueLeft liftR ur others ≤ (IRect.right liftR : ℚ) ∧
      endOfQueueLeft liftR ur others ≤ (WIDTH : ℚ) ∧
      (∀ o ∈ others, betweenLeft liftR ur o → endOfQueueLeft liftR ur others ≤ o.rect.x) ∧
      (endOfQueueLeft liftR ur others = (IRect.right liftR : ℚ) ∨
        endOfQueueLeft liftR ur others = (WIDTH : ℚ) ∨
        ∃ o, o ∈ others ∧ betweenLeft liftR ur o ∧
          endOfQueueLeft liftR ur others = o.rect.x)) ∧
      ((liftR.x : ℚ) ≤ endOfQueueRight liftR ur others ∧
        0 ≤ endOfQueueRight liftR ur others ∧
        (∀ o ∈ others, betweenRight liftR ur o →
          FRect.right o.rect ≤ endOfQueueRight liftR ur others) ∧
        (endOfQueueRight liftR ur others = (liftR.x : ℚ) ∨
          endOfQueueRight liftR ur others = 0 ∨
          ∃ o, o ∈ others ∧ betweenRight liftR ur o ∧
            endOfQueueRight liftR ur others = FRect.right o.rect)) ∧
      (FRect.centerx u.rect < (IRect.centerx lift.rect : ℚ) →
        FRect.right (userTick bh lf dt sd dd all lift u).user.rect
          ≤ (lift.rect.x : ℚ) - 5) ∧
      ((IRect.centerx lift.rect : ℚ) ≤ FRect.centerx u.rect →
        (IRect.right lift.rect : ℚ) + 5
          ≤ (userTick bh lf dt sd dd all lift u).user.rect.x) := by
  refine ⟨?_, ?_, ?_, ?_⟩
  · unfold endOfQueueLeft
    refine ⟨?_, ?_, ?_, ?_⟩
    · exact le_trans (foldl_min_le_init _ _) (min_le_left _ _)
    · exact le_trans (foldl_min_le_init _ _) (min_le_right _ _)
    · intro o ho hb
      exact foldl_min_le_mem _ _ _
        (List.mem_map_of_mem _ (List.mem_filter.mpr ⟨ho, decide_eq_true hb⟩))
    · rcases foldl_min_mem_or
          ((List.filter (fun o => decide (betweenLeft liftR ur o)) others).map
            (fun o => o.rect.x)) (min (IRect.right liftR : ℚ) (WIDTH : ℚ)) with h | h
      · rcases min_cases (IRect.right liftR : ℚ) ((WIDTH : ℚ)) with ⟨he, _⟩ | ⟨he, _⟩
        · exact Or.inl (h.trans he)
        · exact Or.inr (Or.inl (h.trans he))
      · obtain ⟨o, hmem, heq⟩ := List.mem_map.mp h
        obtain ⟨ho, hp⟩ := List.mem_filter.mp hmem
        exact Or.inr (Or.inr ⟨o, ho, of_decide_eq_true hp, heq.symm⟩)
  · unfold endOfQueueRight
    refine ⟨?_, ?_, ?_, ?_⟩
    · exact le_trans (le_max_left _ _) (foldl_max_ge_init _ _)
    · exact le_trans (le_max_right _ _) (foldl_max_ge_init _ _)
    · intro o ho hb
      exact foldl_max_ge_mem _ _ _
        (List.mem_map_of_mem _ (List.mem_filter.mpr ⟨ho, decide_eq_true hb⟩))
    · rcases foldl_max_mem_or
          ((List.filter (fun o => decide (betweenRight liftR ur o)) others).map
            (fun o => FRect.right o.rect)) (max (liftR.x : ℚ) 0) with h | h
      · rcases max_cases ((liftR.x : ℚ)) ((0 : ℚ)) with ⟨he, _⟩ | ⟨he, _⟩
        · exact Or.inl (h.trans he)
        · exact Or.inr (Or.inl (h.trans he))
      · obtain ⟨o, hmem, heq⟩ := List.mem_map.mp h
        obtain ⟨ho, hp⟩ := List.mem_filter.mp hmem
        exact Or.inr (Or.inr ⟨o, ho, of_decide_eq_true hp, heq.symm⟩)
  · intro hside
    simp only [userTick, hslot]
    unfold groundTick
    rw [if_pos hpat]
    dsimp only
    rw [if_pos hguard, FRect.centerx_setBottom, if_pos hside]
    exact doorClampRect_side1_right _ _
  · intro hge
    simp only [userTick, hslot]
    unfold groundTick
    rw [if_pos hpat]
    dsimp only
    rw [if_pos hguard, FRect.centerx_setBottom, if_neg (not_lt.mpr hge)]
    exact doorClampRect_side0_left _ _

/-- C4 counterexample: for a left-side user with nobody queued between it
and the lift, the code's end-of-queue boundary is the lift's far (right)
door edge x = 450, not the near (left) door edge x = 350 named by the
claim; the two disagree. -/
theorem end_of_queue_near_edge_counterexample :
    endOfQueueLeft scnLift.rect ⟨368, 896, 32, 128⟩ [] = 450 ∧
      claimEndOfQueueLeft scnLift.rect ⟨368, 896, 32, 128⟩ [] = 350 ∧
      endOfQueueLeft scnLift.rect ⟨368, 896, 32, 128⟩ []
        ≠ claimEndOfQueueLeft scnLift.rect ⟨368, 896, 32, 128⟩ [] := by
  decide

/-- C4 witness: a left-side user on floor 3 with the lift parked at
floor 0, no other user in between. -/
theorem end_of_queue_packing_and_door_clamp_witness :
    (endOfQueueLeft scnLift.rect ⟨368, 896, 32, 128⟩ [] ≤ (IRect.right scnLift.rect : ℚ) ∧
      endOfQueueLeft scnLift.rect ⟨368, 896, 32, 128⟩ [] ≤ (WIDTH : ℚ) ∧
      (∀ o ∈ ([] : List User), betweenLeft scnLift.rect ⟨368, 896, 32, 128⟩ o →
        endOfQueueLeft scnLift.rect ⟨368, 896, 32, 128⟩ [] ≤ o.rect.x) ∧
      (endOfQueueLeft scnLift.rect ⟨368, 896, 32, 128⟩ [] = (IRect.right scnLift.rect : ℚ) ∨
        endOfQueueLeft scnLift.rect ⟨368, 896, 32, 128⟩ [] = (WIDTH : ℚ) ∨
        ∃ o, o ∈ ([] : List User) ∧ betweenLeft scnLift.rect ⟨368, 896, 32, 128⟩ o ∧
          endOfQueueLeft scnLift.rect ⟨368, 896, 32, 128⟩ [] = o.rect.x)) ∧
      ((scnLift.rect.x : ℚ) ≤ endOfQueueRight scnLift.rect ⟨368, 896, 32, 128⟩ [] ∧
        0 ≤ endOfQueueRight scnLift.rect ⟨368, 896, 32, 128⟩ [] ∧
        (∀ o ∈ ([] : List User), betweenRight scnLift.rect ⟨368, 896, 32, 128⟩ o →
          FRect.right o.rect ≤ endOfQueueRight scnLift.rect ⟨368, 896, 32, 128⟩ []) ∧
        (endOfQueueRight scnLift.rect ⟨368, 896, 32, 128⟩ [] = (scnLift.rect.x : ℚ) ∨
          endOfQueueRight scnLift.rect ⟨368, 896, 32, 128⟩ [] = 0 ∨
          ∃ o, o ∈ ([] : List User) ∧ betweenRight scnLift.rect ⟨368, 896, 32, 128⟩ o ∧
            endOfQueueRight scnLift.rect ⟨368, 896, 32, 128⟩ [] = FRect.right o.rect)) ∧
      (FRect.centerx uQueue.rect < (IRect.centerx scnLift.rect : ℚ) →
        FRect.right (userTick 1024 0 1 0 1 [] scnLift uQueue).user.rect
          ≤ (scnLift.rect.x : ℚ) - 5) ∧
      ((IRect.centerx scnLift.rect : ℚ) ≤ FRect.centerx uQueue.rect →
        (IRect.right scnLift.rect : ℚ) + 5
          ≤ (userTick 1024 0 1 0 1 [] scnLift uQueue).user.rect.x) :=
  end_of_queue_packing_and_door_clamp scnLift.rect ⟨368, 896, 32, 128⟩ [] 1024 0 1 0 1 []
    scnLift uQueue (by decide) (by decide) (by decide)

end LocoLift
